import Mathlib

/-!
Shallow embedding of the SDFileSystem SPI SD/MMC driver (latest revision of
`SDFileSystem.cpp`).  The bus is modelled as an oracle: each `m_Spi.write`
consumes one position of a stream `bus : Nat → Nat` and yields the byte (or
16-bit word) the card returned; the values the driver writes do not influence
what the card answers in this model, so only the number of transfers matters
for positions.  Unbounded `while (!m_Spi.write(0xFF));` loops are modelled
with explicit fuel returning `Option`.  `disk_initialize` is additionally
modelled at the `commandTransaction` level: an oracle `Nat → Trans` yields the
final R1 token and extended response of each transaction, in order.
`m_Spi.frequency` and `m_Spi.format` calls clock no bytes, so they consume no
oracle positions; the frequency itself is not part of the modelled state.
-/

namespace SDFS

/-- Card types, from `enum CardType` in `SDFileSystem.h`. -/
inductive CardType where
  | none
  | mmc
  | sd
  | sdhc
  | unknown
deriving DecidableEq

/-- `STA_NOINIT` status bit (mbed `diskio.h`). -/
def STA_NOINIT : Nat := 0x01

/-- `STA_NODISK` status bit. -/
def STA_NODISK : Nat := 0x02

/-- `STA_PROTECT` status bit. -/
def STA_PROTECT : Nat := 0x04

/-- `RES_OK` result code. -/
def RES_OK : Nat := 0

/-- `RES_ERROR` result code. -/
def RES_ERROR : Nat := 1

/-- `RES_WRPRT` result code. -/
def RES_WRPRT : Nat := 2

/-- `RES_NOTRDY` result code. -/
def RES_NOTRDY : Nat := 3

/-- Two's-complement `~m` of a mask within the driver's 32-bit `int`,
as used by `m_Status &= ~STA_NODISK` and `m_Status &= ~STA_NOINIT`. -/
def maskNot (m : Nat) : Nat := 0xFFFFFFFF ^^^ m

/-- The driver state relevant to the claims: the `m_Status` bitfield,
`m_CardType`, `m_Crc` and `m_LargeFrames`. -/
structure DriverState where
  status : Nat
  cardType : CardType
  crcOn : Bool
  largeFrames : Bool
deriving DecidableEq

/-- Constructor state: `m_Status = STA_NOINIT; m_CardType = CARD_NONE;
m_Crc = true; m_LargeFrames = false;` (SDFileSystem.cpp lines 524-541). -/
def initialState : DriverState :=
  { status := STA_NOINIT, cardType := CardType.none, crcOn := true, largeFrames := false }

/-- `checkSocket` (lines 871-882): the presence sample is `m_Cd == m_CD_ASSERT`;
present clears `STA_NODISK`, absent ORs in `STA_NODISK | STA_NOINIT` and resets
the card type. -/
def checkSocket (s : DriverState) (present : Bool) : DriverState :=
  if present then
    { s with status := s.status &&& maskNot STA_NODISK }
  else
    { s with status := s.status ||| (STA_NODISK ||| STA_NOINIT), cardType := CardType.none }

/-- `unmount` (lines 597-608): sets `STA_NOINIT` and resets the card type. -/
def unmountOp (s : DriverState) : DriverState :=
  { s with status := s.status ||| STA_NOINIT, cardType := CardType.none }

/-- The `crc(bool enabled)` setter (lines 562-583): samples the socket, then
either just stores the flag (when not initialized) or issues CMD59 and stores
it.  The CMD59 transaction does not change the driver state. -/
def crcSet (s : DriverState) (present : Bool) (enabled : Bool) : DriverState :=
  let s := checkSocket s present
  if s.status &&& STA_NOINIT ≠ 0 then { s with crcOn := enabled }
  else if enabled ∧ ¬s.crcOn then { s with crcOn := true }
  else if ¬enabled ∧ s.crcOn then { s with crcOn := false }
  else s

/-- The `large_frames(bool enabled)` setter (lines 591-595). -/
def largeFramesSet (s : DriverState) (enabled : Bool) : DriverState :=
  { s with largeFrames := enabled }

/-! ## Byte-level bus model

`bus i` is the byte (or, inside 16-bit frames, the word) the card returns on
the `i`-th SPI transfer of the run under consideration.  Every `m_Spi.write`
advances the position by one. -/

/-- `waitReady(timeout)` (lines 884-895): up to `timeout` reads; returns true
as soon as a read yields `0xFF`.  Result: (ready?, next position). -/
def waitReady (bus : Nat → Nat) : Nat → Nat → Bool × Nat
  | pos, 0 => (false, pos)
  | pos, fuel + 1 =>
    if bus pos % 256 = 0xFF then (true, pos + 1) else waitReady bus (pos + 1) fuel

/-- `deselect` (lines 915-922): one dummy transfer. -/
def deselectB (pos : Nat) : Nat := pos + 1

/-- `select` (lines 897-913): one dummy transfer, then `waitReady(500)`;
on timeout it deselects (one more transfer) and fails. -/
def selectB (bus : Nat → Nat) (pos : Nat) : Bool × Nat :=
  let r := waitReady bus (pos + 1) 500
  if r.1 then (true, r.2) else (false, deselectB r.2)

/-- The R1 response poll inside `command` (lines 974-979):
`for (int i = 0; i < 9; i++) { token = m_Spi.write(0xFF); if (!(token & 0x80)) break; }`.
Returns the first byte with bit 7 clear among the reads, or the last byte read
when all reads have bit 7 set, together with the next position. -/
def respPoll (bus : Nat → Nat) : Nat → Nat → Nat × Nat
  | pos, 0 => (0xFF, pos)
  | pos, fuel + 1 =>
    let t := bus pos % 256
    if t &&& 0x80 = 0 then (t, pos + 1)
    else if fuel = 0 then (t, pos + 1)
    else respPoll bus (pos + 1) fuel

/-- Which commands get a CMD55 prefix in `command` (line 945):
`cmd == ACMD23 || cmd == ACMD41 || cmd == ACMD42`.  (Note the source does not
list ACMD22 here.) -/
def isAcmd (cmd : Nat) : Bool := cmd = 23 || cmd = 41 || cmd = 42

/-- Result of `command`: the R1 token, the next bus position, the extended
response written through `resp` (if any), and the number of frame
transmissions performed (the bookkeeping of the retry loop variable `f`). -/
structure CmdRes where
  token : Nat
  pos : Nat
  resp : Option Nat
  att : Nat
deriving DecidableEq

/-- One attempt of the body of `command` (lines 954-1006) for the command
itself (without the CMD55 prefix): transmit the 6-byte packet, the stuff byte
after CMD12, poll for R1, and on success read the R2 (CMD13) or R3/R7
(CMD8/CMD58) extension.  The bytes the driver writes do not affect the oracle,
so the packet contributes 6 positions. -/
def oneAttempt (cmd : Nat) (wantResp : Bool) (bus : Nat → Nat) (pos : Nat) : CmdRes :=
  let p := pos + 6 + (if cmd = 12 then 1 else 0)
  let r := respPoll bus p 9
  let t := r.1
  let q := r.2
  if t = 0xFF then ⟨t, q, Option.none, 1⟩
  else if t &&& (1 <<< 3) ≠ 0 then ⟨t, q, Option.none, 1⟩
  else if t > 0x01 then ⟨t, q, Option.none, 1⟩
  else if cmd = 13 ∧ wantResp then ⟨t, q + 1, Option.some (bus q % 256), 1⟩
  else if (cmd = 8 ∨ cmd = 58) ∧ wantResp then
    ⟨t, q + 4,
      Option.some (((bus q % 256) <<< 24) ||| ((bus (q + 1) % 256) <<< 16) |||
        ((bus (q + 2) % 256) <<< 8) ||| (bus (q + 3) % 256)), 1⟩
  else ⟨t, q, Option.none, 1⟩

/-- The retry loop of `command` (lines 943-1007) for a command without a
CMD55 prefix: retry (up to the fuel, 3 at top level) exactly when the token is
not `0xFF` and has the CRC-error bit (bit 3) set. -/
def commandPlainGo (cmd : Nat) (wantResp : Bool) (bus : Nat → Nat) : Nat → Nat → CmdRes
  | pos, 0 => ⟨0xFF, pos, Option.none, 0⟩
  | pos, fuel + 1 =>
    let r := oneAttempt cmd wantResp bus pos
    if r.token ≠ 0xFF ∧ r.token &&& (1 <<< 3) ≠ 0 ∧ fuel ≠ 0 then
      let rest := commandPlainGo cmd wantResp bus r.pos fuel
      { rest with att := rest.att + 1 }
    else r

/-- The retry loop of `command` for an application-specific command
(ACMD23/ACMD41/ACMD42): each attempt first runs a full `command(CMD55, 0)`
(itself with 3 attempts); a CMD55 token above `0x01` is returned verbatim;
otherwise one dummy byte is clocked (line 951) and the ACMD frame follows. -/
def commandAcmdGo (cmd : Nat) (wantResp : Bool) (bus : Nat → Nat) : Nat → Nat → CmdRes
  | pos, 0 => ⟨0xFF, pos, Option.none, 0⟩
  | pos, fuel + 1 =>
    let r55 := commandPlainGo 55 false bus pos 3
    if r55.token > 0x01 then ⟨r55.token, r55.pos, Option.none, 1⟩
    else
      let r := oneAttempt cmd wantResp bus (r55.pos + 1)
      if r.token ≠ 0xFF ∧ r.token &&& (1 <<< 3) ≠ 0 ∧ fuel ≠ 0 then
        let rest := commandAcmdGo cmd wantResp bus r.pos fuel
        { rest with att := rest.att + 1 }
      else r

/-- `command(cmd, arg, resp)` (lines 938-1011).  The argument bytes only go
out on the wire, so `arg` does not appear in the oracle model. -/
def command (cmd : Nat) (wantResp : Bool) (bus : Nat → Nat) (pos : Nat) : CmdRes :=
  if isAcmd cmd then commandAcmdGo cmd wantResp bus pos 3
  else commandPlainGo cmd wantResp bus pos 3

/-- `commandTransaction` (lines 924-936): select, `command`, deselect.
Returns ((token, extended response), next position). -/
def commandTransactionB (cmd : Nat) (wantResp : Bool) (bus : Nat → Nat) (pos : Nat) :
    (Nat × Option Nat) × Nat :=
  let s := selectB bus pos
  if s.1 then
    let r := command cmd wantResp bus s.2
    ((r.token, r.resp), deselectB r.pos)
  else ((0xFF, Option.none), s.2)

/-! ## Data transfers -/

/-- One shift of the CRC16 register. -/
def crc16Round (c : Nat) : Nat :=
  if c &&& 0x8000 ≠ 0 then ((c <<< 1) ^^^ 0x1021) &&& 0xFFFF else (c <<< 1) &&& 0xFFFF

/-- Modelled from the spec: `CRC16.h` is not under `src/`; §6 gives its
contract (CRC-CCITT: polynomial 0x1021, initial value 0, MSB-first over
bytes). -/
def CRC16 (bs : List Nat) : Nat :=
  bs.foldl (fun c b => crc16Round^[8] (c ^^^ ((b % 256) <<< 8))) 0

/-- The 200 ms data-start-token poll of `readData` (lines 1019-1024): up to
200 reads, breaking at the first byte that is not `0xFF`; the result is that
byte, or `0xFF` when all 200 reads were `0xFF`. -/
def dataTokenPoll (bus : Nat → Nat) : Nat → Nat → Nat × Nat
  | pos, 0 => (0xFF, pos)
  | pos, fuel + 1 =>
    let t := bus pos % 256
    if t ≠ 0xFF then (t, pos + 1)
    else if fuel = 0 then (t, pos + 1)
    else dataTokenPoll bus (pos + 1) fuel

/-- Result of `readData`: success flag, the bytes stored into the caller's
buffer, and the next bus position. -/
structure ReadRes where
  ok : Bool
  buf : List Nat
  pos : Nat
deriving DecidableEq

/-- `readData(buffer, length)` (lines 1013-1060): poll for the start token;
any token other than `0xFE` fails immediately.  In 16-bit frame mode the data
arrive as big-endian words followed by one CRC word; in 8-bit mode as bytes
followed by two CRC bytes.  Success is `!m_Crc || crc == CRC16(buffer, length)`. -/
def readData (crcOn lf : Bool) (bus : Nat → Nat) (pos : Nat) (length : Nat) : ReadRes :=
  let tp := dataTokenPoll bus pos 200
  let tok := tp.1
  let p := tp.2
  if tok ≠ 0xFE then ⟨false, [], p⟩
  else if lf then
    let w := (length + 1) / 2
    let buf := (List.range w).flatMap
      (fun i => [(bus (p + i) % 65536) >>> 8, bus (p + i) % 256])
    let crc := bus (p + w) % 65536
    ⟨!crcOn || crc = CRC16 buf, buf, p + w + 1⟩
  else
    let buf := (List.range length).map (fun i => bus (p + i) % 256)
    let crc := ((bus (p + length) % 256) <<< 8) ||| (bus (p + length + 1) % 256)
    ⟨!crcOn || crc = CRC16 buf, buf, p + length + 2⟩

/-- The CRC16 trailer received by `readData` after a start token at position
`p` for an `n`-byte transfer: one 16-bit word after the `(n+1)/2` data words
in 16-bit frame mode, two big-endian bytes after the `n` data bytes in 8-bit
mode. -/
def recvCrc16 (lf : Bool) (bus : Nat → Nat) (p n : Nat) : Nat :=
  if lf then bus (p + (n + 1) / 2) % 65536
  else ((bus (p + n) % 256) <<< 8) ||| (bus (p + n + 1) % 256)

/-- The unbounded card-ready wait `while (!m_Spi.write(0xFF));` (lines 1068,
1261, 1269, 1289, 1161): spins until the bus returns a nonzero byte.  The
source loop has no bound, so the model takes fuel and answers `none` when the
bus has not returned a nonzero byte within the fuel. -/
def busyWait (bus : Nat → Nat) : Nat → Nat → Option Nat
  | _, 0 => Option.none
  | pos, fuel + 1 =>
    if bus pos % 256 ≠ 0 then Option.some (pos + 1) else busyWait bus (pos + 1) fuel

/-- `writeData(buffer, token)` (lines 1062-1099): card-ready busy wait, start
token, 512 data bytes (256 words in 16-bit mode) plus the CRC16 trailer, then
one read whose low 5 bits are the data-response token.  Written values do not
affect the oracle; the transfer count does.  `none` models divergence of the
busy wait. -/
def writeData (lf : Bool) (bus : Nat → Nat) (pos : Nat) (wfuel : Nat) :
    Option (Nat × Nat) :=
  match busyWait bus pos wfuel with
  | Option.none => Option.none
  | Option.some p =>
    let p2 := p + 1 + (if lf then 257 else 514)
    Option.some ((bus p2 % 256) &&& 0x1F, p2 + 1)

/-- LBA-to-address conversion used by the block operations: the logical block
number for SDHC, the byte address `lba * 512` otherwise. -/
def addrFor (ct : CardType) (lba : Nat) : Nat :=
  if ct = CardType.sdhc then lba else lba * 512

/-! ## Block I/O -/

/-- `readBlock` (lines 1101-1127): up to 3 attempts of select /
CMD17 / `readData(512)` / deselect; a failed command or select breaks out and
the trailing deselect runs. -/
def readBlockGo (crcOn lf : Bool) (bus : Nat → Nat) : Nat → Nat → Bool × Nat
  | pos, 0 => (false, deselectB pos)
  | pos, fuel + 1 =>
    let s := selectB bus pos
    if s.1 then
      let r := command 17 false bus s.2
      if r.token = 0 then
        let rd := readData crcOn lf bus r.pos 512
        let p2 := deselectB rd.pos
        if rd.ok then (true, p2) else readBlockGo crcOn lf bus p2 fuel
      else (false, deselectB r.pos)
    else (false, deselectB s.2)

/-- The inner `do { ... } while (--count)` of `readBlocks` (lines 1140-1151):
read 512-byte blocks until a data error or until `count` is exhausted.
Returns (remaining count, next position, errored?). -/
def rbInner (crcOn lf : Bool) (bus : Nat → Nat) : Nat → Nat → Nat × Nat × Bool
  | 0, pos => (0, pos, false)
  | count + 1, pos =>
    let rd := readData crcOn lf bus pos 512
    if rd.ok then
      if count = 0 then (0, rd.pos, false) else rbInner crcOn lf bus count rd.pos
    else (count + 1, rd.pos, true)

/-- `readBlocks` (lines 1129-1178).  The outer loop's counter `f` is
incremented on a data error and reset to 0 after each good block; the loop
runs while `f < 3`.  `fuel` bounds the number of outer iterations (the source
bounds them by the interplay of `f` and `count`); `wfuel` feeds the unbounded
CMD12 wait at line 1161. -/
def readBlocksGo (crcOn lf : Bool) (bus : Nat → Nat) (wfuel : Nat) :
    Nat → Nat → Nat → Nat → Nat → Option (Bool × Nat)
  | 0, _, _, pos, _ => Option.none
  | fuel + 1, count, lba, pos, f =>
    if 3 ≤ f then Option.some (false, deselectB pos)
    else
      let s := selectB bus pos
      if s.1 then
        let r := command 18 false bus s.2
        if r.token = 0 then
          let inner := rbInner crcOn lf bus count r.pos
          let rem := inner.1
          let p2 := inner.2.1
          let errored := inner.2.2
          let f2 := if errored then (if rem < count then 1 else f + 1) else 0
          let r12 := command 12 false bus p2
          if r12.token = 0 then
            if rem ≠ 0 then
              match busyWait bus r12.pos wfuel with
              | Option.none => Option.none
              | Option.some p3 =>
                readBlocksGo crcOn lf bus wfuel fuel rem (lba + (count - rem))
                  (deselectB p3) f2
            else Option.some (true, deselectB r12.pos)
          else Option.some (false, deselectB r12.pos)
        else Option.some (false, deselectB r.pos)
      else Option.some (false, deselectB s.2)

/-- `writeBlock` (lines 1180-1221): up to 3 attempts of select / CMD24 /
`writeData(buffer, 0xFE)` / deselect; token `0x0A` retries, `0x0C` aborts,
otherwise CMD13 must answer R1 = 0 with R2 byte 0. -/
def writeBlockGo (lf : Bool) (bus : Nat → Nat) (wfuel : Nat) :
    Nat → Nat → Option (Bool × Nat)
  | pos, 0 => Option.some (false, deselectB pos)
  | pos, fuel + 1 =>
    let s := selectB bus pos
    if s.1 then
      let r := command 24 false bus s.2
      if r.token = 0 then
        match writeData lf bus r.pos wfuel with
        | Option.none => Option.none
        | Option.some (tok, p2) =>
          let p3 := deselectB p2
          if tok = 0x0A then writeBlockGo lf bus wfuel p3 fuel
          else if tok = 0x0C then Option.some (false, deselectB p3)
          else
            let ct := commandTransactionB 13 true bus p3
            if ct.1.1 ≠ 0 then Option.some (false, deselectB ct.2)
            else if ct.1.2.getD 0 ≠ 0 then Option.some (false, deselectB ct.2)
            else Option.some (true, ct.2)
      else Option.some (false, deselectB r.pos)
    else Option.some (false, deselectB s.2)

/-- The inner `do { ... } while (--currentCount)` of `writeBlocks`
(lines 1247-1258): stream 512-byte blocks with start token `0xFC` until a
data-response token other than `0x05` or until the count is exhausted.
Returns (remaining count, next position, last token, errored?); `none` models
divergence of the busy wait inside `writeData`. -/
def wbInner (lf : Bool) (bus : Nat → Nat) (wfuel : Nat) :
    Nat → Nat → Option (Nat × Nat × Nat × Bool)
  | 0, pos => Option.some (0, pos, 0x05, false)
  | count + 1, pos =>
    match writeData lf bus pos wfuel with
    | Option.none => Option.none
    | Option.some (tok, p) =>
      if tok ≠ 0x05 then Option.some (count + 1, p, tok, true)
      else if count = 0 then Option.some (0, p, tok, false)
      else wbInner lf bus wfuel count p

/-- `writeBlocks` (lines 1223-1332).  `lba0`/`count0` are the original
arguments used by the ACMD22 rollback (lines 1311-1314); the per-iteration
state is the current count, current LBA offset, bus position and the retry
counter `f`. -/
def writeBlocksGo (ct : CardType) (crcOn lf : Bool) (bus : Nat → Nat) (wfuel : Nat)
    (lba0 count0 : Nat) : Nat → Nat → Nat → Nat → Nat → Option (Bool × Nat)
  | 0, _, _, _, _ => Option.none
  | fuel + 1, count, lba, pos, f =>
    if 3 ≤ f then Option.some (false, deselectB pos)
    else
      -- ACMD23 pre-erase for non-MMC cards (lines 1233-1238)
      let a := commandTransactionB 23 false bus pos
      if ct ≠ CardType.mmc ∧ a.1.1 ≠ 0 then Option.some (false, deselectB a.2)
      else
        let p0 := if ct ≠ CardType.mmc then a.2 else pos
        let s := selectB bus p0
        if s.1 then
          let r := command 25 false bus s.2
          if r.token = 0 then
            match wbInner lf bus wfuel count r.pos with
            | Option.none => Option.none
            | Option.some (rem, p2, tok, errored) =>
              let f2 := if errored then (if rem < count then 1 else f + 1) else 0
              match busyWait bus p2 wfuel with
              | Option.none => Option.none
              | Option.some p3 =>
                if rem = 0 then
                  -- stop-tran token, programming wait, deselect, CMD13 check
                  match busyWait bus (p3 + 1) wfuel with
                  | Option.none => Option.none
                  | Option.some p4 =>
                    let p5 := deselectB p4
                    let v := commandTransactionB 13 true bus p5
                    if v.1.1 ≠ 0 then Option.some (false, deselectB v.2)
                    else if v.1.2.getD 0 ≠ 0 then Option.some (false, deselectB v.2)
                    else Option.some (true, v.2)
                else
                  let r12 := command 12 false bus p3
                  if r12.token = 0 then
                    match busyWait bus r12.pos wfuel with
                    | Option.none => Option.none
                    | Option.some p4 =>
                      let p5 := deselectB p4
                      if tok = 0x0A then
                        -- ACMD22 recovery (lines 1293-1317)
                        if ct ≠ CardType.mmc then
                          let a22 := commandTransactionB 22 false bus p5
                          if a22.1.1 = 0 then
                            let rd := readData crcOn lf bus a22.2 4
                            let wb :=
                              if rd.ok then
                                (rd.buf.getD 0 0 <<< 24) ||| (rd.buf.getD 1 0 <<< 16) |||
                                  (rd.buf.getD 2 0 <<< 8) ||| rd.buf.getD 3 0
                              else 0
                            writeBlocksGo ct crcOn lf bus wfuel lba0 count0 fuel
                              (count0 - wb) (lba0 + wb) rd.pos f2
                          else
                            writeBlocksGo ct crcOn lf bus wfuel lba0 count0 fuel
                              count0 lba0 a22.2 f2
                        else
                          writeBlocksGo ct crcOn lf bus wfuel lba0 count0 fuel
                            count0 lba0 p5 f2
                      else Option.some (false, deselectB p5)
                  else Option.some (false, deselectB r12.pos)
          else Option.some (false, deselectB r.pos)
        else Option.some (false, deselectB s.2)

/-! ## Facade -/

/-- `disk_read(buffer, sector, count)` (lines 775-792): `RES_NOTRDY` when not
initialized; `count > 1` goes to `readBlocks`, anything else (including 0) to
`readBlock`.  Result: `(result code, next bus position)`; `none` models
divergence of the unbounded waits inside `readBlocks`. -/
def disk_read (s : DriverState) (bus : Nat → Nat) (wfuel fuel : Nat)
    (lba count pos : Nat) : Option (Nat × Nat) :=
  if s.status &&& STA_NOINIT ≠ 0 then Option.some (RES_NOTRDY, pos)
  else if count > 1 then
    (readBlocksGo s.crcOn s.largeFrames bus wfuel fuel count lba pos 0).map
      (fun r => ((if r.1 then RES_OK else RES_ERROR), r.2))
  else
    let r := readBlockGo s.crcOn s.largeFrames bus pos 3
    Option.some ((if r.1 then RES_OK else RES_ERROR), r.2)

/-- `disk_write(buffer, sector, count)` (lines 794-815): `RES_NOTRDY` when not
initialized, `RES_WRPRT` when write-protected; `count > 1` goes to
`writeBlocks`, anything else (including 0) to `writeBlock`. -/
def disk_write (s : DriverState) (bus : Nat → Nat) (wfuel fuel : Nat)
    (lba count pos : Nat) : Option (Nat × Nat) :=
  if s.status &&& STA_NOINIT ≠ 0 then Option.some (RES_NOTRDY, pos)
  else if s.status &&& STA_PROTECT ≠ 0 then Option.some (RES_WRPRT, pos)
  else if count > 1 then
    (writeBlocksGo s.cardType s.crcOn s.largeFrames bus wfuel lba count fuel count lba pos 0).map
      (fun r => ((if r.1 then RES_OK else RES_ERROR), r.2))
  else
    (writeBlockGo s.largeFrames bus wfuel pos 3).map
      (fun r => ((if r.1 then RES_OK else RES_ERROR), r.2))

/-- The CSD interpretation of `disk_sectors` (lines 847-858), on the 16 bytes
read from the card (`char` is unsigned on the ARM targets this driver is
written for). -/
def csdSectorCount (csd : List Nat) : Nat :=
  let b := fun i => csd.getD i 0 % 256
  if (b 0) >>> 6 = 0x01 then
    (((((b 7) &&& 0x3F) <<< 16) ||| ((b 8) <<< 8) ||| (b 9)) + 1) <<< 10
  else
    let size := (((((b 6) &&& 0x03) <<< 10) ||| ((b 7) <<< 2) ||| (((b 8) &&& 0xC0) >>> 6)) + 1)
    let size := size <<< (((((b 9) &&& 0x03) <<< 1) ||| (((b 10) &&& 0x80) >>> 7)) + 2)
    let size := size <<< ((b 5) &&& 0x0F)
    size >>> 9

/-- The retry loop of `disk_sectors` (lines 835-864): up to 3 attempts of
select / CMD9 / `readData(16)` / deselect, decoding the CSD on success. -/
def disk_sectorsGo (crcOn lf : Bool) (bus : Nat → Nat) : Nat → Nat → Nat × Nat
  | pos, 0 => (0, deselectB pos)
  | pos, fuel + 1 =>
    let s := selectB bus pos
    if s.1 then
      let r := command 9 false bus s.2
      if r.token = 0 then
        let rd := readData crcOn lf bus r.pos 16
        let p2 := deselectB rd.pos
        if rd.ok then (csdSectorCount rd.buf, p2) else disk_sectorsGo crcOn lf bus p2 fuel
      else (0, deselectB r.pos)
    else (0, deselectB s.2)

/-- `disk_sectors` (lines 828-869): 0 when not initialized, else the retry
loop. -/
def disk_sectors (s : DriverState) (bus : Nat → Nat) (pos : Nat) : Nat × Nat :=
  if s.status &&& STA_NOINIT ≠ 0 then (0, pos)
  else disk_sectorsGo s.crcOn s.largeFrames bus pos 3

/-! ## Initialization sequencer (transaction-level model)

`disk_initialize` (lines 610-764) only consults the bus through
`commandTransaction`; the oracle `env` yields, for the `i`-th transaction of
the run, its final R1 token and (for CMD8/CMD58) the 32-bit extended
response.  The model also records the `(command index, argument)` of every
transaction issued, in order. -/

/-- Transaction-level oracle entry: final R1 token and extended response. -/
structure Trans where
  token : Nat
  resp : Nat
deriving DecidableEq

/-- An activation poll (lines 664-670, 700-706, 713-719): up to `fuel`
(1000 at top level) transactions, breaking at the first token ≠ `0x01`;
the result is the last token read and the next oracle position. -/
def pollTrans (env : Nat → Trans) : Nat → Nat → Nat × Nat
  | pos, 0 => (0x01, pos)
  | pos, fuel + 1 =>
    let t := (env pos).token
    if t = 0x01 then
      if fuel = 0 then (t, pos + 1) else pollTrans env (pos + 1) fuel
    else (t, pos + 1)

/-- Result of the `disk_initialize` model: the driver state, the returned
status value, and the `(cmd, arg)` trace of the transactions issued. -/
structure InitRes where
  state : DriverState
  ret : Nat
  trace : List (Nat × Nat)
deriving DecidableEq

/-- The tail of `disk_initialize` from line 733: CMD16(512) unless SDHC,
ACMD42(0) unless MMC, then clear `STA_NOINIT`.  The trace holds only the
transactions this part issues. -/
def initFinish (s : DriverState) (env : Nat → Trans) (pos : Nat) : InitRes :=
  let k16 := if s.cardType ≠ CardType.sdhc then 1 else 0
  let t16 : List (Nat × Nat) := if s.cardType ≠ CardType.sdhc then [(16, 0x00000200)] else []
  if s.cardType ≠ CardType.sdhc ∧ (env pos).token ≠ 0x00 then
    ⟨{ s with cardType := CardType.unknown }, s.status, t16⟩
  else if s.cardType ≠ CardType.mmc ∧ (env (pos + k16)).token ≠ 0x00 then
    ⟨{ s with cardType := CardType.unknown }, s.status, t16 ++ [(42, 0x00000000)]⟩
  else
    let t42 : List (Nat × Nat) := if s.cardType ≠ CardType.mmc then [(42, 0x00000000)] else []
    let s2 := { s with status := s.status &&& maskNot STA_NOINIT }
    ⟨s2, s2.status, t16 ++ t42⟩

/-- The card-type decision tree of `disk_initialize` (lines 648-731) together
with its tail (lines 733-763, `initFinish`), starting at the CMD8 transaction
whose oracle position is `p8`.  The trace holds the `(cmd, arg)` of the
transactions issued from CMD8 onward. -/
def initTree (s : DriverState) (env : Nat → Trans) (p8 : Nat) : InitRes :=
  if (env p8).token = 0x01 then
    -- SDv2 branch (lines 649-690)
    if (env p8).resp &&& 0xFFF ≠ 0x1AA then
      ⟨{ s with cardType := CardType.unknown }, s.status, [(8, 0x000001AA)]⟩
    else if ¬((env (p8 + 1)).token = 0x01 ∧ (env (p8 + 1)).resp &&& (1 <<< 20) ≠ 0) then
      ⟨{ s with cardType := CardType.unknown }, s.status, [(8, 0x000001AA), (58, 0)]⟩
    else
      let pl := pollTrans env (p8 + 2) 1000
      let tr41 : List (Nat × Nat) := List.replicate (pl.2 - (p8 + 2)) (41, 0x40100000)
      if pl.1 ≠ 0x00 then
        ⟨{ s with cardType := CardType.unknown }, s.status, (8, 0x000001AA) :: (58, 0) :: tr41⟩
      else if (env pl.2).token = 0x00 then
        let kind := if (env pl.2).resp &&& (1 <<< 30) ≠ 0 then CardType.sdhc else CardType.sd
        let s2 := { s with cardType := kind }
        let fin := initFinish s2 env (pl.2 + 1)
        ⟨fin.state, fin.ret, (8, 0x000001AA) :: (58, 0) :: tr41 ++ [(58, 0)] ++ fin.trace⟩
      else
        ⟨{ s with cardType := CardType.unknown }, s.status,
          (8, 0x000001AA) :: (58, 0) :: tr41 ++ [(58, 0)]⟩
  else
    -- SDv1 / MMC branch (lines 691-731)
    if ¬((env (p8 + 1)).token = 0x01 ∧ (env (p8 + 1)).resp &&& (1 <<< 20) ≠ 0) then
      ⟨{ s with cardType := CardType.unknown }, s.status, [(8, 0x000001AA), (58, 0)]⟩
    else
      let pl := pollTrans env (p8 + 2) 1000
      let tr41 : List (Nat × Nat) := List.replicate (pl.2 - (p8 + 2)) (41, 0x00100000)
      if pl.1 = 0x00 then
        let s2 := { s with cardType := CardType.sd }
        let fin := initFinish s2 env pl.2
        ⟨fin.state, fin.ret, (8, 0x000001AA) :: (58, 0) :: tr41 ++ fin.trace⟩
      else
        let pl1 := pollTrans env pl.2 1000
        let tr1 : List (Nat × Nat) := List.replicate (pl1.2 - pl.2) (1, 0x00100000)
        if pl1.1 = 0x00 then
          let s2 := { s with cardType := CardType.mmc }
          let fin := initFinish s2 env pl1.2
          ⟨fin.state, fin.ret, (8, 0x000001AA) :: (58, 0) :: tr41 ++ tr1 ++ fin.trace⟩
        else
          ⟨{ s with cardType := CardType.unknown }, s.status,
            (8, 0x000001AA) :: (58, 0) :: tr41 ++ tr1⟩

/-- `disk_initialize` (lines 610-764) over the transaction oracle.  `present`
is the card-detect sample taken by the `checkSocket` call at line 616.  After
the socket and status guards, CMD0 and the optional CMD59, the remainder is
`initTree`; the CMD8 transaction sits at oracle position 2 when CRC is
enabled (CMD0, CMD59, CMD8) and 1 otherwise. -/
def diskInitialize (s : DriverState) (present : Bool) (env : Nat → Trans) : InitRes :=
  let s := checkSocket s present
  if s.status &&& STA_NODISK ≠ 0 then ⟨s, s.status, []⟩
  else if s.status &&& STA_NOINIT = 0 then ⟨s, s.status, []⟩
  else
    -- CMD0(0) (line 633)
    if (env 0).token ≠ 0x01 then
      ⟨{ s with cardType := CardType.unknown }, s.status, [(0, 0)]⟩
    else
      -- CMD59(1) when CRC is enabled (lines 640-646)
      let t59 : List (Nat × Nat) := if s.crcOn then [(59, 0x00000001)] else []
      if s.crcOn ∧ (env 1).token ≠ 0x01 then
        ⟨{ s with cardType := CardType.unknown }, s.status, (0, 0) :: t59⟩
      else
        let tree := initTree s env (if s.crcOn then 2 else 1)
        ⟨tree.state, tree.ret, (0, 0) :: t59 ++ tree.trace⟩

/-- `disk_status` (lines 766-773): a presence sample, then the status. -/
def disk_statusOp (s : DriverState) (present : Bool) : DriverState :=
  checkSocket s present

/-- `card_type` (lines 543-554): sample the socket; when a card is present but
not initialized, run `disk_initialize`. -/
def cardTypeOp (s : DriverState) (present : Bool) (env : Nat → Trans) : DriverState :=
  let s1 := checkSocket s present
  if s1.status &&& STA_NODISK = 0 ∧ s1.status &&& STA_NOINIT ≠ 0 then
    (diskInitialize s1 present env).state
  else s1

/-- The status values the driver can actually reach: the constructor starts
at `STA_NOINIT = 1`; presence samples move between 1 and 3 (or keep 0/1);
successful initialization clears `STA_NOINIT`; `STA_PROTECT` is never set by
this driver. -/
def statusOK (s : DriverState) : Prop :=
  s.status = 0 ∨ s.status = 1 ∨ s.status = 3

/-- States reachable from construction by the public operations.
`disk_status` performs exactly a `checkSocket` sample before returning, the
card-detect edge handler is wired to `checkSocket` itself, and `disk_read`,
`disk_write`, `disk_sync` and `disk_sectors` never write `m_Status` or
`m_CardType`, so they leave the `DriverState` unchanged and need no separate
constructor. -/
inductive Reachable : DriverState → Prop where
  | init : Reachable initialState
  | socket (s : DriverState) (p : Bool) : Reachable s → Reachable (checkSocket s p)
  | diskInit (s : DriverState) (p : Bool) (env : Nat → Trans) :
      Reachable s → Reachable (diskInitialize s p env).state
  | cardType (s : DriverState) (p : Bool) (env : Nat → Trans) :
      Reachable s → Reachable (cardTypeOp s p env)
  | crc (s : DriverState) (p e : Bool) : Reachable s → Reachable (crcSet s p e)
  | frames (s : DriverState) (e : Bool) : Reachable s → Reachable (largeFramesSet s e)
  | unmount (s : DriverState) : Reachable s → Reachable (unmountOp s)

/-! ## Helper lemmas -/

/-- Masking with `0x3F` is reduction mod 64. -/
theorem and_63_eq_mod (x : Nat) : x &&& 0x3F = x % 64 := by
  have h := Nat.and_pow_two_sub_one_eq_mod x 6
  norm_num at h
  exact h

/-- Or of a shifted value with a small value is addition. -/
theorem shiftLeft_or_eq_add (a b k : Nat) (hb : b < 2 ^ k) :
    (a <<< k) ||| b = a * 2 ^ k + b := by
  rw [Nat.shiftLeft_eq, Nat.mul_comm]
  exact (Nat.mul_add_lt_is_or hb a).symm

/-- `waitReady` consumes at most its timeout many transfers. -/
theorem waitReady_pos_le (bus : Nat → Nat) :
    ∀ fuel pos, (waitReady bus pos fuel).2 ≤ pos + fuel := by
  intro fuel
  induction fuel with
  | zero => intro pos; simp [waitReady]
  | succ n ih =>
    intro pos
    simp only [waitReady]
    split
    · omega
    · have := ih (pos + 1)
      omega

/-- The data-start-token poll consumes at most its budget. -/
theorem dataTokenPoll_pos_le (bus : Nat → Nat) :
    ∀ fuel pos, (dataTokenPoll bus pos fuel).2 ≤ pos + fuel := by
  intro fuel
  induction fuel with
  | zero => intro pos; simp [dataTokenPoll]
  | succ n ih =>
    intro pos
    simp only [dataTokenPoll]
    split
    · omega
    · split
      · omega
      · have := ih (pos + 1)
        omega

/-- An activation poll consumes at most its budget many transactions. -/
theorem pollTrans_pos_le (env : Nat → Trans) :
    ∀ fuel pos, (pollTrans env pos fuel).2 ≤ pos + fuel := by
  intro fuel
  induction fuel with
  | zero => intro pos; simp [pollTrans]
  | succ n ih =>
    intro pos
    simp only [pollTrans]
    split
    · split
      · omega
      · have := ih (pos + 1)
        omega
    · omega

/-- On a bus that always answers `0x00`, the unbounded card-ready wait never
finds a nonzero byte. -/
theorem busyWait_zero_none : ∀ fuel pos, busyWait (fun _ => 0) pos fuel = Option.none := by
  intro fuel
  induction fuel with
  | zero => intro pos; rfl
  | succ n ih => intro pos; simp [busyWait, ih]

/-- The R1 poll consumes at most its budget. -/
theorem respPoll_pos_le (bus : Nat → Nat) :
    ∀ fuel pos, (respPoll bus pos fuel).2 ≤ pos + fuel := by
  intro fuel
  induction fuel with
  | zero => intro pos; simp [respPoll]
  | succ n ih =>
    intro pos
    simp only [respPoll]
    split
    · omega
    · split
      · omega
      · have := ih (pos + 1)
        omega

/-- The R1 poll returns the first byte whose bit 7 is clear. -/
theorem respPoll_first_clear (bus : Nat → Nat) :
    ∀ fuel pos i, i < fuel → (∀ j, j < i → bus (pos + j) % 256 &&& 0x80 ≠ 0) →
      bus (pos + i) % 256 &&& 0x80 = 0 →
      respPoll bus pos fuel = (bus (pos + i) % 256, pos + i + 1) := by
  intro fuel
  induction fuel with
  | zero => intro pos i hi; omega
  | succ n ih =>
    intro pos i hi hset hclear
    simp only [respPoll]
    rcases Nat.eq_zero_or_pos i with rfl | hpos
    · simp only [Nat.add_zero] at hclear
      simp [hclear]
    · have h0 : bus (pos + 0) % 256 &&& 0x80 ≠ 0 := hset 0 hpos
      simp only [Nat.add_zero] at h0
      rw [if_neg h0]
      have hn : n ≠ 0 := by omega
      rw [if_neg hn]
      have := ih (pos + 1) (i - 1) (by omega)
        (fun j hj => by
          have := hset (j + 1) (by omega)
          simpa [Nat.add_assoc, Nat.add_comm 1 j] using this)
        (by
          have : pos + 1 + (i - 1) = pos + i := by omega
          rw [this]
          exact hclear)
      rw [this]
      have : pos + 1 + (i - 1) = pos + i := by omega
      rw [this]

/-- When every byte in the window has bit 7 set, the R1 poll ends with the
last byte read. -/
theorem respPoll_all_set (bus : Nat → Nat) :
    ∀ fuel pos, fuel ≠ 0 → (∀ j, j < fuel → bus (pos + j) % 256 &&& 0x80 ≠ 0) →
      respPoll bus pos fuel = (bus (pos + (fuel - 1)) % 256, pos + fuel) := by
  intro fuel
  induction fuel with
  | zero => intro pos h; omega
  | succ n ih =>
    intro pos _ hset
    simp only [respPoll]
    have h0 : bus (pos + 0) % 256 &&& 0x80 ≠ 0 := hset 0 (by omega)
    simp only [Nat.add_zero] at h0
    rw [if_neg h0]
    rcases Nat.eq_zero_or_pos n with rfl | hpos
    · simp
    · have hn : n ≠ 0 := by omega
      rw [if_neg hn]
      have := ih (pos + 1) hn
        (fun j hj => by
          have := hset (j + 1) (by omega)
          simpa [Nat.add_assoc, Nat.add_comm 1 j] using this)
      rw [this]
      have h1 : pos + 1 + (n - 1) = pos + (n + 1 - 1) := by omega
      have h2 : pos + 1 + n = pos + (n + 1) := by omega
      rw [h1, h2]

/-- A single attempt counts as one frame transmission. -/
theorem oneAttempt_att (cmd : Nat) (wantResp : Bool) (bus : Nat → Nat) (pos : Nat) :
    (oneAttempt cmd wantResp bus pos).att = 1 := by
  unfold oneAttempt
  simp only [apply_ite CmdRes.att]
  simp [ite_self]

/-- The plain-command retry loop makes at most `fuel` attempts. -/
theorem commandPlainGo_att_le (cmd : Nat) (wantResp : Bool) (bus : Nat → Nat) :
    ∀ fuel pos, (commandPlainGo cmd wantResp bus pos fuel).att ≤ fuel := by
  intro fuel
  induction fuel with
  | zero => intro pos; simp [commandPlainGo]
  | succ n ih =>
    intro pos
    simp only [commandPlainGo]
    split
    · have := ih (oneAttempt cmd wantResp bus pos).pos
      simpa using Nat.succ_le_succ this
    · have := oneAttempt_att cmd wantResp bus pos
      omega

/-- The application-command retry loop makes at most `fuel` attempts. -/
theorem commandAcmdGo_att_le (cmd : Nat) (wantResp : Bool) (bus : Nat → Nat) :
    ∀ fuel pos, (commandAcmdGo cmd wantResp bus pos fuel).att ≤ fuel := by
  intro fuel
  induction fuel with
  | zero => intro pos; simp [commandAcmdGo]
  | succ n ih =>
    intro pos
    simp only [commandAcmdGo]
    split
    · simp
    · split
      · have := ih (oneAttempt cmd wantResp bus
          ((commandPlainGo 55 false bus pos 3).pos + 1)).pos
        simpa using Nat.succ_le_succ this
      · have := oneAttempt_att cmd wantResp bus ((commandPlainGo 55 false bus pos 3).pos + 1)
        omega

/-- A presence sample preserves the reachable status values. -/
theorem checkSocket_statusOK (s : DriverState) (p : Bool) (h : statusOK s) :
    statusOK (checkSocket s p) := by
  cases p <;> rcases h with h | h | h <;>
    simp only [checkSocket, statusOK, Bool.false_eq_true, if_false, if_true] <;>
    rw [h] <;> decide

/-- `unmount` preserves the reachable status values. -/
theorem unmountOp_statusOK (s : DriverState) (h : statusOK s) : statusOK (unmountOp s) := by
  rcases h with h | h | h <;> simp only [unmountOp, statusOK] <;> rw [h] <;> decide

/-- The `crc` setter only resamples the socket and stores the flag. -/
theorem crcSet_statusOK (s : DriverState) (p e : Bool) (h : statusOK s) :
    statusOK (crcSet s p e) := by
  have hcs := checkSocket_statusOK s p h
  simp only [crcSet]
  split_ifs <;> exact hcs

/-- The `large_frames` setter does not touch the status. -/
theorem largeFramesSet_statusOK (s : DriverState) (e : Bool) (h : statusOK s) :
    statusOK (largeFramesSet s e) := by
  exact h

/-- The status after `initFinish` is the incoming one, or the incoming one
with `STA_NOINIT` cleared. -/
theorem initFinish_status (s : DriverState) (env : Nat → Trans) (pos : Nat) :
    (initFinish s env pos).state.status = s.status ∨
      (initFinish s env pos).state.status = s.status &&& maskNot STA_NOINIT := by
  simp only [initFinish]
  split_ifs <;> simp

/-- `initFinish` keeps the status in the reachable set when entered with
status 1. -/
theorem initFinish_statusOK_of_one (s : DriverState) (env : Nat → Trans) (pos : Nat)
    (h : s.status = 1) : statusOK (initFinish s env pos).state := by
  rcases initFinish_status s env pos with hh | hh
  · right; left; rw [hh, h]
  · left; rw [hh, h]; decide

set_option maxHeartbeats 1000000 in
/-- `initTree` keeps the status in the reachable set when entered with
status 1. -/
theorem initTree_statusOK_of_one (s : DriverState) (env : Nat → Trans) (p8 : Nat)
    (h : s.status = 1) : statusOK (initTree s env p8).state := by
  simp only [initTree]
  split_ifs <;>
    first
      | exact initFinish_statusOK_of_one _ env _ h
      | exact Or.inr (Or.inl h)

/-- `disk_initialize` preserves the reachable status values. -/
theorem diskInitialize_statusOK (s : DriverState) (p : Bool) (env : Nat → Trans)
    (h : statusOK s) : statusOK (diskInitialize s p env).state := by
  have hcs := checkSocket_statusOK s p h
  simp only [diskInitialize]
  rcases hcs with h0 | h1 | h3
  · rw [if_neg (by rw [h0]; decide), if_pos (by rw [h0]; decide)]
    exact Or.inl h0
  · rw [if_neg (by rw [h1]; decide), if_neg (by rw [h1]; decide)]
    split_ifs <;>
      first
        | exact initTree_statusOK_of_one _ env _ h1
        | exact Or.inr (Or.inl h1)
  · rw [if_pos (by rw [h3]; decide)]
    exact Or.inr (Or.inr h3)

/-- `card_type` preserves the reachable status values. -/
theorem cardTypeOp_statusOK (s : DriverState) (p : Bool) (env : Nat → Trans)
    (h : statusOK s) : statusOK (cardTypeOp s p env) := by
  simp only [cardTypeOp]
  split_ifs
  · exact diskInitialize_statusOK _ p env (checkSocket_statusOK s p h)
  · exact checkSocket_statusOK s p h

/-- Every reachable state has one of the stable status values 0, 1, 3. -/
theorem reachable_statusOK (s : DriverState) (h : Reachable s) : statusOK s := by
  induction h with
  | init => right; left; rfl
  | socket s p _ ih => exact checkSocket_statusOK s p ih
  | diskInit s p env _ ih => exact diskInitialize_statusOK s p env ih
  | cardType s p env _ ih => exact cardTypeOp_statusOK s p env ih
  | crc s p e _ ih => exact crcSet_statusOK s p e ih
  | frames s e _ ih => exact largeFramesSet_statusOK s e ih
  | unmount s _ ih => exact unmountOp_statusOK s ih

/-- ORing in `STA_NODISK ||| STA_NOINIT` sets bit 1 whatever the old value. -/
theorem or_three_and_two (x : Nat) : (x ||| 3) &&& 2 ≠ 0 := by
  have h2 : (2 : Nat) = 2 ^ 1 := by norm_num
  rw [h2, Nat.and_two_pow]
  have hb : (x ||| 3).testBit 1 = true := by
    rw [Nat.testBit_lor]
    have : (3 : Nat).testBit 1 = true := by decide
    rw [this, Bool.or_true]
  rw [hb]
  norm_num

/-- ORing in `STA_NODISK ||| STA_NOINIT` sets bit 0 whatever the old value. -/
theorem or_three_and_one (x : Nat) : (x ||| 3) &&& 1 ≠ 0 := by
  have h1 : (1 : Nat) = 2 ^ 0 := by norm_num
  rw [h1, Nat.and_two_pow]
  have hb : (x ||| 3).testBit 0 = true := by
    rw [Nat.testBit_lor]
    have : (3 : Nat).testBit 0 = true := by decide
    rw [this, Bool.or_true]
  rw [hb]
  norm_num

/-- Clearing `STA_NODISK` leaves it clear. -/
theorem and_maskNot_nodisk_nodisk (x : Nat) :
    (x &&& maskNot STA_NODISK) &&& STA_NODISK = 0 := by
  rw [Nat.and_assoc, show maskNot STA_NODISK &&& STA_NODISK = 0 from by decide, Nat.and_zero]

/-- Clearing `STA_NODISK` does not change `STA_NOINIT`. -/
theorem and_maskNot_nodisk_noinit (x : Nat) :
    (x &&& maskNot STA_NODISK) &&& STA_NOINIT = x &&& STA_NOINIT := by
  rw [Nat.and_assoc, show maskNot STA_NODISK &&& STA_NOINIT = STA_NOINIT from by decide]

/-- Clearing `STA_NOINIT` leaves it clear. -/
theorem and_maskNot_noinit_noinit (x : Nat) :
    (x &&& maskNot STA_NOINIT) &&& STA_NOINIT = 0 := by
  rw [Nat.and_assoc, show maskNot STA_NOINIT &&& STA_NOINIT = 0 from by decide, Nat.and_zero]

/-- A presence sample never changes the CRC flag. -/
theorem checkSocket_crcOn (s : DriverState) (p : Bool) :
    (checkSocket s p).crcOn = s.crcOn := by
  cases p <;> rfl

/-- Every transaction issued by `initFinish` is CMD16 or ACMD42. -/
theorem initFinish_trace (s : DriverState) (env : Nat → Trans) (pos : Nat) :
    ∀ e ∈ (initFinish s env pos).trace, e.1 = 16 ∨ e.1 = 42 := by
  simp only [initFinish]
  split_ifs <;> intro e he <;> fin_cases he <;> decide

/-- Every transaction issued by `initTree` is CMD8, CMD58, ACMD41, CMD1,
CMD16 or ACMD42 — never CMD59. -/
theorem initTree_trace (s : DriverState) (env : Nat → Trans) (p8 : Nat) :
    ∀ e ∈ (initTree s env p8).trace, e.1 ≠ 59 := by
  simp only [initTree]
  split_ifs <;> intro e he <;>
    repeat'
      first
        | exact absurd he (List.not_mem_nil _)
        | (rcases List.mem_cons.mp he with rfl | he)
        | (rcases List.mem_append.mp he with he | he)
        | (obtain rfl := List.eq_of_mem_replicate he; decide)
        | (rcases initFinish_trace _ env _ _ he with h | h <;> omega)
        | decide

/-- `initTree`'s trace always begins with the CMD8 transaction. -/
theorem initTree_trace_head (s : DriverState) (env : Nat → Trans) (p8 : Nat) :
    ∃ rest, (initTree s env p8).trace = (8, 0x000001AA) :: rest := by
  simp only [initTree]
  split_ifs <;> exact ⟨_, rfl⟩

/-- When the applicable CMD16 and ACMD42 both succeed, `initFinish` clears
`STA_NOINIT` and keeps the card type. -/
theorem initFinish_ok (s2 : DriverState) (env : Nat → Trans) (pos : Nat)
    (h16 : s2.cardType ≠ CardType.sdhc → (env pos).token = 0x00)
    (h42 : s2.cardType ≠ CardType.mmc →
      (env (pos + (if s2.cardType ≠ CardType.sdhc then 1 else 0))).token = 0x00) :
    (initFinish s2 env pos).state =
      { s2 with status := s2.status &&& maskNot STA_NOINIT } ∧
      (initFinish s2 env pos).ret = s2.status &&& maskNot STA_NOINIT := by
  simp only [initFinish]
  rw [if_neg (fun hc => hc.2 (h16 hc.1)), if_neg (fun hc => hc.2 (h42 hc.1))]
  exact ⟨rfl, rfl⟩

/-- The outcome of the card-type decision tree, as a function of the oracle:
SDHC when the SDv2 checks pass and CCS is set (and ACMD42 succeeds), SD when
CCS is clear or the ACMD41 poll of the SDv1 branch succeeds (and CMD16 and
ACMD42 succeed), MMC when only the CMD1 poll succeeds (and CMD16 succeeds),
Unknown with `STA_NOINIT` kept when both polls fail. -/
theorem initTree_cases (s2 : DriverState) (env : Nat → Trans) (p8 : Nat)
    (hs : s2.status &&& STA_NOINIT ≠ 0) :
    ((env p8).token = 0x01 → (env p8).resp &&& 0xFFF = 0x1AA →
      (env (p8 + 1)).token = 0x01 → (env (p8 + 1)).resp &&& (1 <<< 20) ≠ 0 →
      (pollTrans env (p8 + 2) 1000).1 = 0x00 →
      (env (pollTrans env (p8 + 2) 1000).2).token = 0x00 →
      (((env (pollTrans env (p8 + 2) 1000).2).resp &&& (1 <<< 30) ≠ 0 →
          (env ((pollTrans env (p8 + 2) 1000).2 + 1)).token = 0x00 →
          (initTree s2 env p8).state.cardType = CardType.sdhc ∧
            (initTree s2 env p8).ret &&& STA_NOINIT = 0) ∧
        ((env (pollTrans env (p8 + 2) 1000).2).resp &&& (1 <<< 30) = 0 →
          (env ((pollTrans env (p8 + 2) 1000).2 + 1)).token = 0x00 →
          (env ((pollTrans env (p8 + 2) 1000).2 + 2)).token = 0x00 →
          (initTree s2 env p8).state.cardType = CardType.sd ∧
            (initTree s2 env p8).ret &&& STA_NOINIT = 0))) ∧
      ((env p8).token ≠ 0x01 →
        (env (p8 + 1)).token = 0x01 → (env (p8 + 1)).resp &&& (1 <<< 20) ≠ 0 →
        (((pollTrans env (p8 + 2) 1000).1 = 0x00 →
            (env (pollTrans env (p8 + 2) 1000).2).token = 0x00 →
            (env ((pollTrans env (p8 + 2) 1000).2 + 1)).token = 0x00 →
            (initTree s2 env p8).state.cardType = CardType.sd ∧
              (initTree s2 env p8).ret &&& STA_NOINIT = 0) ∧
          ((pollTrans env (p8 + 2) 1000).1 ≠ 0x00 →
            (pollTrans env (pollTrans env (p8 + 2) 1000).2 1000).1 = 0x00 →
            (env (pollTrans env (pollTrans env (p8 + 2) 1000).2 1000).2).token = 0x00 →
            (initTree s2 env p8).state.cardType = CardType.mmc ∧
              (initTree s2 env p8).ret &&& STA_NOINIT = 0) ∧
          ((pollTrans env (p8 + 2) 1000).1 ≠ 0x00 →
            (pollTrans env (pollTrans env (p8 + 2) 1000).2 1000).1 ≠ 0x00 →
            (initTree s2 env p8).state.cardType = CardType.unknown ∧
              (initTree s2 env p8).ret &&& STA_NOINIT ≠ 0))) := by
  constructor
  · intro h8 hchk h58 h20 hpoll htok
    have hrw : initTree s2 env p8 =
        (let pl := pollTrans env (p8 + 2) 1000
        let kind := if (env pl.2).resp &&& (1 <<< 30) ≠ 0 then CardType.sdhc else CardType.sd
        let s3 := { s2 with cardType := kind }
        let fin := initFinish s3 env (pl.2 + 1)
        let tr41 : List (Nat × Nat) := List.replicate (pl.2 - (p8 + 2)) (41, 0x40100000)
        (⟨fin.state, fin.ret,
          (8, 0x000001AA) :: (58, 0) :: tr41 ++ [(58, 0)] ++ fin.trace⟩ : InitRes)) := by
      simp only [initTree]
      rw [if_pos h8, if_neg (by simp [hchk]), if_neg (not_not_intro ⟨h58, h20⟩),
        if_neg (by simp [hpoll]), if_pos htok]
    constructor
    · intro hccs h42
      rw [hrw]
      simp only [if_pos hccs]
      have hfin := initFinish_ok { s2 with cardType := CardType.sdhc } env
        ((pollTrans env (p8 + 2) 1000).2 + 1)
        (fun hc => absurd rfl hc) (fun _ => h42)
      rw [hfin.1, hfin.2]
      exact ⟨rfl, and_maskNot_noinit_noinit s2.status⟩
    · intro hccs h16 h42
      rw [hrw]
      simp only [hccs, ne_eq, not_true_eq_false, if_false, if_neg]
      have hfin := initFinish_ok { s2 with cardType := CardType.sd } env
        ((pollTrans env (p8 + 2) 1000).2 + 1)
        (fun _ => h16) (fun _ => h42)
      rw [hfin.1, hfin.2]
      exact ⟨rfl, and_maskNot_noinit_noinit s2.status⟩
  · intro h8 h58 h20
    have hrw0 : initTree s2 env p8 =
        (let pl := pollTrans env (p8 + 2) 1000
        let tr41 : List (Nat × Nat) := List.replicate (pl.2 - (p8 + 2)) (41, 0x00100000)
        if pl.1 = 0x00 then
          let s3 := { s2 with cardType := CardType.sd }
          let fin := initFinish s3 env pl.2
          (⟨fin.state, fin.ret, (8, 0x000001AA) :: (58, 0) :: tr41 ++ fin.trace⟩ : InitRes)
        else
          let pl1 := pollTrans env pl.2 1000
          let tr1 : List (Nat × Nat) := List.replicate (pl1.2 - pl.2) (1, 0x00100000)
          if pl1.1 = 0x00 then
            let s3 := { s2 with cardType := CardType.mmc }
            let fin := initFinish s3 env pl1.2
            ⟨fin.state, fin.ret, (8, 0x000001AA) :: (58, 0) :: tr41 ++ tr1 ++ fin.trace⟩
          else
            ⟨{ s2 with cardType := CardType.unknown }, s2.status,
              (8, 0x000001AA) :: (58, 0) :: tr41 ++ tr1⟩) := by
      simp only [initTree]
      rw [if_neg h8, if_neg (not_not_intro ⟨h58, h20⟩)]
    refine ⟨?_, ?_, ?_⟩
    · intro hpoll h16 h42
      rw [hrw0]
      simp only [if_pos hpoll]
      have hfin := initFinish_ok { s2 with cardType := CardType.sd } env
        (pollTrans env (p8 + 2) 1000).2 (fun _ => h16) (fun _ => h42)
      rw [hfin.1, hfin.2]
      exact ⟨rfl, and_maskNot_noinit_noinit s2.status⟩
    · intro hpne hp1 h16
      rw [hrw0]
      simp only [if_neg hpne, if_pos hp1]
      have hfin := initFinish_ok { s2 with cardType := CardType.mmc } env
        (pollTrans env (pollTrans env (p8 + 2) 1000).2 1000).2
        (fun _ => h16) (fun hc => absurd rfl hc)
      rw [hfin.1, hfin.2]
      exact ⟨rfl, and_maskNot_noinit_noinit s2.status⟩
    · intro hpne hp1ne
      rw [hrw0]
      simp only [if_neg hpne, if_neg hp1ne]
      exact ⟨by simp, hs⟩

/-- When the card is present, `STA_NOINIT` is set, CMD0 answers `0x01` and
CMD59 answers `0x01` (when issued), `disk_initialize` reduces to the decision
tree at the CMD8 position. -/
theorem diskInitialize_tree (s : DriverState) (env : Nat → Trans)
    (hni : s.status &&& STA_NOINIT ≠ 0) (h0 : (env 0).token = 0x01)
    (h59 : s.crcOn = true → (env 1).token = 0x01) :
    (diskInitialize s true env).state =
      (initTree (checkSocket s true) env (if s.crcOn then 2 else 1)).state ∧
      (diskInitialize s true env).ret =
        (initTree (checkSocket s true) env (if s.crcOn then 2 else 1)).ret := by
  have hst : (checkSocket s true).status = s.status &&& maskNot STA_NODISK := rfl
  have g1 : ¬((checkSocket s true).status &&& STA_NODISK ≠ 0) := by
    rw [hst, and_maskNot_nodisk_nodisk]
    simp
  have g2 : ¬((checkSocket s true).status &&& STA_NOINIT = 0) := by
    rw [hst, and_maskNot_nodisk_noinit]
    exact hni
  simp only [diskInitialize]
  rw [if_neg g1, if_neg g2, if_neg (by simp [h0]), if_neg (fun hc2 => hc2.2 (h59 hc2.1))]
  exact ⟨rfl, rfl⟩

/-- A nonzero-fuel retry loop makes at least one attempt. -/
theorem commandPlainGo_att_pos (cmd : Nat) (wantResp : Bool) (bus : Nat → Nat) :
    ∀ fuel pos, fuel ≠ 0 → 1 ≤ (commandPlainGo cmd wantResp bus pos fuel).att := by
  intro fuel pos h
  cases fuel with
  | zero => omega
  | succ n =>
    simp only [commandPlainGo]
    split
    · simp
    · simp [oneAttempt_att]

/-! ## Claims -/

/-- C9 counterexample: the claim says the constructor sets both
`STA_NOINIT` and `STA_NODISK`; the constructor (line 530) sets
`m_Status = STA_NOINIT` only, leaving `STA_NODISK` clear. -/
theorem C9_counterexample :
    ¬(initialState.status &&& STA_NOINIT ≠ 0 ∧ initialState.status &&& STA_NODISK ≠ 0) := by
  decide

/-- C9 (amended): immediately after construction the status bitfield has
`STA_NOINIT` set and `STA_NODISK` clear, and the card type is `CARD_NONE`
(no presence sample has been taken yet). -/
theorem C9_initial_state :
    initialState.status &&& STA_NOINIT ≠ 0 ∧ initialState.status &&& STA_NODISK = 0 ∧
      initialState.cardType = CardType.none := by
  decide

/-- C2 counterexample: for the CSD-v2 bytes `csd[7..9] = 0x00, 0x3B, 0x4F`
the code returns `(0x003B4F + 1) <<< 10 = 15,548,416` sectors, not the
claimed 15,552,512. -/
theorem C2_counterexample :
    csdSectorCount [0x40, 0, 0, 0, 0, 0, 0, 0x00, 0x3B, 0x4F, 0, 0, 0, 0, 0, 0] = 15548416 ∧
      (15548416 : Nat) ≠ 15552512 := by
  decide

/-- C2 (amended): for a CSD with version field 1 (CSD v2), the sector count is
`(C_SIZE + 1) <<< 10` with `C_SIZE = ((csd[7] & 0x3F) << 16) | (csd[8] << 8) | csd[9]`,
i.e. arithmetically `((csd[7] mod 64)·2^16 + csd[8]·2^8 + csd[9] + 1)·1024`;
for `csd[7..9] = 0x00, 0x3B, 0x4F` this is 15,548,416. -/
theorem C2_csd_v2_sectors (csd : List Nat) (h : (csd.getD 0 0 % 256) >>> 6 = 0x01) :
    csdSectorCount csd =
      ((csd.getD 7 0 % 256 % 64) * 65536 + (csd.getD 8 0 % 256) * 256 +
        (csd.getD 9 0 % 256) + 1) * 1024 ∧
      csdSectorCount [0x40, 0, 0, 0, 0, 0, 0, 0x00, 0x3B, 0x4F, 0, 0, 0, 0, 0, 0] = 15548416 := by
  refine ⟨?_, by decide⟩
  unfold csdSectorCount
  simp only [h, if_pos]
  rw [and_63_eq_mod]
  have h8 : (csd.getD 8 0 % 256) <<< 8 < 2 ^ 16 := by
    have : csd.getD 8 0 % 256 < 256 := Nat.mod_lt _ (by norm_num)
    rw [Nat.shiftLeft_eq]
    omega
  have h9 : csd.getD 9 0 % 256 < 2 ^ 8 := by
    have : csd.getD 9 0 % 256 < 256 := Nat.mod_lt _ (by norm_num)
    omega
  rw [shiftLeft_or_eq_add _ _ 16 h8]
  have hmul : csd.getD 7 0 % 256 % 64 * 2 ^ 16 + (csd.getD 8 0 % 256) <<< 8 =
      (csd.getD 7 0 % 256 % 64 * 2 ^ 8 + csd.getD 8 0 % 256) <<< 8 := by
    simp only [Nat.shiftLeft_eq]
    ring
  rw [hmul, shiftLeft_or_eq_add _ _ 8 h9, Nat.shiftLeft_eq]
  ring

/-- C2 witness: the amended theorem applied to a concrete CSD-v2 register. -/
theorem C2_csd_v2_sectors_witness :
    csdSectorCount [0x40, 0, 0, 0, 0, 0, 0, 0x00, 0x3B, 0x4F, 0, 0, 0, 0, 0, 0] =
      ((0x00 % 64) * 65536 + 0x3B * 256 + 0x4F + 1) * 1024 := by
  have h := C2_csd_v2_sectors [0x40, 0, 0, 0, 0, 0, 0, 0x00, 0x3B, 0x4F, 0, 0, 0, 0, 0, 0]
    (by decide)
  simpa using h.1

/-- C7: in every state reachable from construction by the public operations,
NoDisk implies NotInitialized; and a present-to-absent sample (a `checkSocket`
run that finds the card absent) sets both `STA_NODISK` and `STA_NOINIT` and
resets the card type to None, whatever the prior state. -/
theorem C7_nodisk_implies_noinit (s : DriverState) (h : Reachable s) :
    (s.status &&& STA_NODISK ≠ 0 → s.status &&& STA_NOINIT ≠ 0) ∧
      (∀ s' : DriverState,
        (checkSocket s' false).status &&& STA_NODISK ≠ 0 ∧
          (checkSocket s' false).status &&& STA_NOINIT ≠ 0 ∧
          (checkSocket s' false).cardType = CardType.none) := by
  constructor
  · rcases reachable_statusOK s h with hs | hs | hs <;> rw [hs] <;> decide
  · intro s'
    have hcs : checkSocket s' false =
        { status := s'.status ||| (STA_NODISK ||| STA_NOINIT), cardType := CardType.none,
          crcOn := s'.crcOn, largeFrames := s'.largeFrames } := by
      simp [checkSocket]
    refine ⟨?_, ?_, by rw [hcs]⟩
    · rw [hcs]
      exact or_three_and_two s'.status
    · rw [hcs]
      exact or_three_and_one s'.status

/-- C7 witness: the invariant instantiated at the constructor state. -/
theorem C7_nodisk_implies_noinit_witness :
    (initialState.status &&& STA_NODISK ≠ 0 → initialState.status &&& STA_NOINIT ≠ 0) ∧
      (∀ s' : DriverState,
        (checkSocket s' false).status &&& STA_NODISK ≠ 0 ∧
          (checkSocket s' false).status &&& STA_NOINIT ≠ 0 ∧
          (checkSocket s' false).cardType = CardType.none) :=
  C7_nodisk_implies_noinit initialState Reachable.init

/-- C8 counterexample: the card-ready wait inside `writeData` (line 1068,
`while (!m_Spi.write(0xFF));`) is NOT bounded: there is no bound within which
it completes on every bus; on a bus that always returns `0x00` it never
completes (and likewise for the identical waits in `writeBlocks` and
`readBlocks`, all modelled by `busyWait`). -/
theorem C8_counterexample :
    ¬ ∃ B : Nat, ∀ pos : Nat, (writeData false (fun _ => 0) pos B).isSome := by
  rintro ⟨B, h⟩
  have h0 := h 0
  rw [writeData, busyWait_zero_none B 0] at h0
  simp at h0

/-- C8 (amended): the for-loop polls are bounded by their fixed budgets —
wait-ready consumes at most 500 transfers, the data-start poll at most 200,
an activation poll at most 1000 transactions — but the card-ready waits
inside `writeData`, `writeBlocks` and `readBlocks` are unbounded `while`
loops: on a bus that always returns `0x00` they never complete. -/
theorem C8_poll_bounds :
    (∀ (bus : Nat → Nat) (pos : Nat), (waitReady bus pos 500).2 ≤ pos + 500) ∧
      (∀ (bus : Nat → Nat) (pos : Nat), (dataTokenPoll bus pos 200).2 ≤ pos + 200) ∧
      (∀ (env : Nat → Trans) (pos : Nat), (pollTrans env pos 1000).2 ≤ pos + 1000) ∧
      (∀ fuel pos : Nat, busyWait (fun _ => 0) pos fuel = Option.none) ∧
      (∀ fuel pos : Nat, writeData false (fun _ => 0) pos fuel = Option.none) := by
  refine ⟨fun bus pos => waitReady_pos_le bus 500 pos,
    fun bus pos => dataTokenPoll_pos_le bus 200 pos,
    fun env pos => pollTrans_pos_le env 1000 pos,
    busyWait_zero_none,
    fun fuel pos => ?_⟩
  rw [writeData, busyWait_zero_none]

/-- C6 counterexample: the claim says R1 is obtained by at most 8 reads; the
response loop (line 975) makes up to 9 reads.  On a bus whose first 8
post-frame bytes all have bit 7 set and whose 9th is `0x00`, the 8-read poll
the claim describes finds no response, yet `command` returns R1 = `0x00`
obtained on the 9th read. -/
theorem C6_counterexample :
    (∀ i, i < 8 → (if (6 + i : Nat) < 14 then 0xFF else 0x00) &&& 0x80 ≠ 0) ∧
      (respPoll (fun i => if i < 14 then 0xFF else 0x00) 6 8).1 = 0xFF ∧
      (command 17 false (fun i => if i < 14 then 0xFF else 0x00) 0).token = 0x00 := by
  refine ⟨by decide, by decide, by decide⟩

/-- C6 (amended): after the 6-byte frame (and the CMD12 stuff byte), the R1
response is obtained by at most 9 reads of `0xFF` (up to 8 delay bytes), and
the first byte read whose bit 7 is clear is taken as R1; when all 9 reads
have bit 7 set, the last byte read stands. -/
theorem C6_resp_poll (cmd : Nat) (wantResp : Bool) (bus : Nat → Nat) (pos : Nat) :
    (respPoll bus pos 9).2 ≤ pos + 9 ∧
      (∀ i, i < 9 → (∀ j, j < i → bus (pos + j) % 256 &&& 0x80 ≠ 0) →
        bus (pos + i) % 256 &&& 0x80 = 0 →
        respPoll bus pos 9 = (bus (pos + i) % 256, pos + i + 1)) ∧
      ((∀ j, j < 9 → bus (pos + j) % 256 &&& 0x80 ≠ 0) →
        respPoll bus pos 9 = (bus (pos + 8) % 256, pos + 9)) ∧
      ((oneAttempt cmd wantResp bus pos).token =
        (respPoll bus (pos + 6 + (if cmd = 12 then 1 else 0)) 9).1) := by
  refine ⟨respPoll_pos_le bus 9 pos,
    fun i hi hset hclear => respPoll_first_clear bus 9 pos i hi hset hclear,
    fun hset => respPoll_all_set bus 9 pos (by omega) hset,
    ?_⟩
  unfold oneAttempt
  simp only [apply_ite CmdRes.token]
  simp [ite_self]

/-- C6 witness: on a bus that immediately answers `0x00`, the poll returns it
after one read, and `oneAttempt` takes its R1 from the poll. -/
theorem C6_resp_poll_witness :
    respPoll (fun _ => 0) 5 9 = (0, 6) ∧
      (oneAttempt 17 false (fun _ => 0) 0).token = (respPoll (fun _ => 0) 6 9).1 := by
  have h := C6_resp_poll 17 false (fun _ => 0) 5
  refine ⟨?_, ?_⟩
  · have := h.2.1 0 (by decide) (by intro j hj; omega) (by decide)
    simpa using this
  · have h0 := C6_resp_poll 17 false (fun _ => 0) 0
    simpa using h0.2.2.2

/-- C1 (amended): in a run of `disk_initialize` with the card present, the
card not initialized, CMD0 answering `0x01` (and CMD59 answering `0x01` when
CRC is enabled), the final CardKind follows the decision tree — provided the
trailing configuration commands succeed: when CMD8 answers `0x01` and the
checks and ACMD41 poll pass, CardKind is SDHC exactly when OCR bit 30 (CCS)
of the second CMD58 is set (ACMD42 must succeed; for the SD outcome CMD16 and
ACMD42 must succeed), and SD otherwise; when CMD8 does not answer `0x01`,
CardKind is SD when the ACMD41 poll ends `0x00` (CMD16 and ACMD42 succeeding),
else MMC when the CMD1 poll ends `0x00` (CMD16 succeeding), else Unknown with
NotInitialized still set. -/
theorem C1_init_decision_tree (s : DriverState) (env : Nat → Trans)
    (hni : s.status &&& STA_NOINIT ≠ 0)
    (h0 : (env 0).token = 0x01)
    (h59 : s.crcOn = true → (env 1).token = 0x01) :
    ((env (if s.crcOn then 2 else 1)).token = 0x01 →
      (env (if s.crcOn then 2 else 1)).resp &&& 0xFFF = 0x1AA →
      (env ((if s.crcOn then 2 else 1) + 1)).token = 0x01 →
      (env ((if s.crcOn then 2 else 1) + 1)).resp &&& (1 <<< 20) ≠ 0 →
      (pollTrans env ((if s.crcOn then 2 else 1) + 2) 1000).1 = 0x00 →
      (env (pollTrans env ((if s.crcOn then 2 else 1) + 2) 1000).2).token = 0x00 →
      (((env (pollTrans env ((if s.crcOn then 2 else 1) + 2) 1000).2).resp &&& (1 <<< 30) ≠ 0 →
          (env ((pollTrans env ((if s.crcOn then 2 else 1) + 2) 1000).2 + 1)).token = 0x00 →
          (diskInitialize s true env).state.cardType = CardType.sdhc ∧
            (diskInitialize s true env).ret &&& STA_NOINIT = 0) ∧
        ((env (pollTrans env ((if s.crcOn then 2 else 1) + 2) 1000).2).resp &&& (1 <<< 30) = 0 →
          (env ((pollTrans env ((if s.crcOn then 2 else 1) + 2) 1000).2 + 1)).token = 0x00 →
          (env ((pollTrans env ((if s.crcOn then 2 else 1) + 2) 1000).2 + 2)).token = 0x00 →
          (diskInitialize s true env).state.cardType = CardType.sd ∧
            (diskInitialize s true env).ret &&& STA_NOINIT = 0))) ∧
      ((env (if s.crcOn then 2 else 1)).token ≠ 0x01 →
        (env ((if s.crcOn then 2 else 1) + 1)).token = 0x01 →
        (env ((if s.crcOn then 2 else 1) + 1)).resp &&& (1 <<< 20) ≠ 0 →
        (((pollTrans env ((if s.crcOn then 2 else 1) + 2) 1000).1 = 0x00 →
            (env (pollTrans env ((if s.crcOn then 2 else 1) + 2) 1000).2).token = 0x00 →
            (env ((pollTrans env ((if s.crcOn then 2 else 1) + 2) 1000).2 + 1)).token = 0x00 →
            (diskInitialize s true env).state.cardType = CardType.sd ∧
              (diskInitialize s true env).ret &&& STA_NOINIT = 0) ∧
          ((pollTrans env ((if s.crcOn then 2 else 1) + 2) 1000).1 ≠ 0x00 →
            (pollTrans env (pollTrans env ((if s.crcOn then 2 else 1) + 2) 1000).2 1000).1 = 0x00 →
            (env (pollTrans env (pollTrans env ((if s.crcOn then 2 else 1) + 2) 1000).2 1000).2).token = 0x00 →
            (diskInitialize s true env).state.cardType = CardType.mmc ∧
              (diskInitialize s true env).ret &&& STA_NOINIT = 0) ∧
          ((pollTrans env ((if s.crcOn then 2 else 1) + 2) 1000).1 ≠ 0x00 →
            (pollTrans env (pollTrans env ((if s.crcOn then 2 else 1) + 2) 1000).2 1000).1 ≠ 0x00 →
            (diskInitialize s true env).state.cardType = CardType.unknown ∧
              (diskInitialize s true env).ret &&& STA_NOINIT ≠ 0))) := by
  obtain ⟨hstate, hret⟩ := diskInitialize_tree s env hni h0 h59
  have hs2 : (checkSocket s true).status &&& STA_NOINIT ≠ 0 := by
    rw [show (checkSocket s true).status = s.status &&& maskNot STA_NODISK from rfl,
      and_maskNot_nodisk_noinit]
    exact hni
  have h := initTree_cases (checkSocket s true) env (if s.crcOn then 2 else 1) hs2
  rw [hstate, hret]
  exact h

/-- C1 counterexample: the claim as stated predicts CardKind SD whenever the
non-SDv2 ACMD41 poll ends with R1 = `0x00`, but a failing CMD16 afterwards
leaves CardKind Unknown: with CMD0 = `0x01`, CRC disabled, CMD8 answering
`0x05`, CMD58 reporting OCR bit 20, the ACMD41 poll ending `0x00`, and CMD16
answering `0x04`, the final CardKind is Unknown, not SD. -/
theorem C1_counterexample :
    ((fun i => if i = 0 then ⟨0x01, 0⟩ else if i = 1 then ⟨0x05, 0⟩
        else if i = 2 then ⟨0x01, 1 <<< 20⟩ else if i = 3 then ⟨0x00, 0⟩
        else (⟨0x04, 0⟩ : Trans) : Nat → Trans) 0).token = 0x01 ∧
      ((fun i => if i = 0 then ⟨0x01, 0⟩ else if i = 1 then ⟨0x05, 0⟩
        else if i = 2 then ⟨0x01, 1 <<< 20⟩ else if i = 3 then ⟨0x00, 0⟩
        else (⟨0x04, 0⟩ : Trans) : Nat → Trans) 1).token ≠ 0x01 ∧
      (pollTrans (fun i => if i = 0 then ⟨0x01, 0⟩ else if i = 1 then ⟨0x05, 0⟩
        else if i = 2 then ⟨0x01, 1 <<< 20⟩ else if i = 3 then ⟨0x00, 0⟩
        else (⟨0x04, 0⟩ : Trans) : Nat → Trans) 3 1000).1 = 0x00 ∧
      (diskInitialize ⟨1, CardType.none, false, false⟩ true
        (fun i => if i = 0 then ⟨0x01, 0⟩ else if i = 1 then ⟨0x05, 0⟩
          else if i = 2 then ⟨0x01, 1 <<< 20⟩ else if i = 3 then ⟨0x00, 0⟩
          else (⟨0x04, 0⟩ : Trans) : Nat → Trans)).state.cardType = CardType.unknown ∧
      CardType.unknown ≠ CardType.sd := by
  refine ⟨by decide, by decide, by decide, by decide, by decide⟩

/-- C1 witness: an SDHC run — CMD0, CMD59, CMD8(0x1AA ok), CMD58 (bit 20),
one ACMD41 answering `0x00`, CMD58 with CCS set, ACMD42 ok — ends with
CardKind SDHC and `STA_NOINIT` cleared. -/
theorem C1_init_decision_tree_witness :
    (diskInitialize initialState true
        (fun i => if i = 0 then ⟨0x01, 0⟩ else if i = 1 then ⟨0x01, 0⟩
          else if i = 2 then ⟨0x01, 0x1AA⟩ else if i = 3 then ⟨0x01, 1 <<< 20⟩
          else if i = 4 then ⟨0x00, 0⟩ else if i = 5 then ⟨0x00, 1 <<< 30⟩
          else (⟨0x00, 0⟩ : Trans) : Nat → Trans)).state.cardType = CardType.sdhc ∧
      (diskInitialize initialState true
        (fun i => if i = 0 then ⟨0x01, 0⟩ else if i = 1 then ⟨0x01, 0⟩
          else if i = 2 then ⟨0x01, 0x1AA⟩ else if i = 3 then ⟨0x01, 1 <<< 20⟩
          else if i = 4 then ⟨0x00, 0⟩ else if i = 5 then ⟨0x00, 1 <<< 30⟩
          else (⟨0x00, 0⟩ : Trans) : Nat → Trans)).ret &&& STA_NOINIT = 0 := by
  have h := C1_init_decision_tree initialState
    (fun i => if i = 0 then ⟨0x01, 0⟩ else if i = 1 then ⟨0x01, 0⟩
      else if i = 2 then ⟨0x01, 0x1AA⟩ else if i = 3 then ⟨0x01, 1 <<< 20⟩
      else if i = 4 then ⟨0x00, 0⟩ else if i = 5 then ⟨0x00, 1 <<< 30⟩
      else (⟨0x00, 0⟩ : Trans) : Nat → Trans)
    (by decide) (by decide) (fun _ => by decide)
  exact (h.1 (by decide) (by decide) (by decide) (by decide) (by decide) (by decide)).1
    (by decide) (by decide)

/-- C3: when the CRC-enable flag is set (its default), `disk_initialize`
issues CMD59(0x00000001) as the second transaction — after CMD0 and before
CMD8 — and a CMD59 response other than `0x01` aborts with CardKind Unknown
and NotInitialized still set; when the flag is clear, no CMD59 is issued
during initialization at all. -/
theorem C3_cmd59_placement (s : DriverState) (env : Nat → Trans)
    (hni : s.status &&& STA_NOINIT ≠ 0) :
    (s.crcOn = true → (env 0).token = 0x01 →
      (((env 1).token = 0x01 →
          ∃ rest, (diskInitialize s true env).trace =
            (0, 0) :: (59, 0x00000001) :: (8, 0x000001AA) :: rest) ∧
        ((env 1).token ≠ 0x01 →
          (diskInitialize s true env).trace = [(0, 0), (59, 0x00000001)] ∧
            (diskInitialize s true env).state.cardType = CardType.unknown ∧
            (diskInitialize s true env).ret &&& STA_NOINIT ≠ 0))) ∧
      (s.crcOn = false → ∀ (present : Bool), ∀ e ∈ (diskInitialize s present env).trace,
        e.1 ≠ 59) := by
  constructor
  · intro hcrc h0
    have hst : (checkSocket s true).status = s.status &&& maskNot STA_NODISK := rfl
    have g1 : ¬((checkSocket s true).status &&& STA_NODISK ≠ 0) := by
      rw [hst, and_maskNot_nodisk_nodisk]
      simp
    have g2 : ¬((checkSocket s true).status &&& STA_NOINIT = 0) := by
      rw [hst, and_maskNot_nodisk_noinit]
      exact hni
    have hc : (checkSocket s true).crcOn = true := hcrc
    simp only [diskInitialize]
    rw [if_neg g1, if_neg g2, if_neg (by simp [h0])]
    constructor
    · intro h59
      rw [if_neg (fun hc2 => hc2.2 h59), if_pos hc, if_pos hc]
      obtain ⟨rest, hr⟩ := initTree_trace_head (checkSocket s true) env 2
      exact ⟨rest, by simp [hr]⟩
    · intro h59
      rw [if_pos ⟨hc, h59⟩]
      refine ⟨by rw [if_pos hc], rfl, ?_⟩
      rw [hst, and_maskNot_nodisk_noinit]
      exact hni
  · intro hcf present e he
    have hc' : (checkSocket s present).crcOn = false := by
      rw [checkSocket_crcOn]
      exact hcf
    simp only [diskInitialize, hc', Bool.false_eq_true, false_and, if_false] at he
    split_ifs at he <;>
      repeat'
        first
          | exact absurd he (List.not_mem_nil _)
          | (rcases List.mem_cons.mp he with rfl | he)
          | (rcases List.mem_append.mp he with he | he)
          | exact initTree_trace _ env _ _ he
          | decide

/-- C3 witness: a CRC-enabled run whose CMD0, CMD59 and CMD8 all answer
`0x01`: the trace begins CMD0, CMD59(1), CMD8(0x1AA). -/
theorem C3_cmd59_placement_witness :
    ∃ rest, (diskInitialize initialState true (fun _ => ⟨0x01, 0⟩)).trace =
      (0, 0) :: (59, 0x00000001) :: (8, 0x000001AA) :: rest := by
  have h := (C3_cmd59_placement initialState (fun _ => ⟨0x01, 0⟩) (by decide)).1
    rfl (by decide)
  exact h.1 (by decide)

/-- C4: `command` makes at most 3 attempts, and for an ordinary (non
application-specific) command the retry discipline holds: a first-attempt R1
of `0xFF` is returned at once with no further attempts; an R1 with the
CRC-error bit (bit 3) set causes the command to be re-sent; any other R1 is
returned verbatim with no retry. -/
theorem C4_command_retry (cmd : Nat) (wantResp : Bool) (bus : Nat → Nat) (pos : Nat) :
    (command cmd wantResp bus pos).att ≤ 3 ∧
      (isAcmd cmd = false →
        ((oneAttempt cmd wantResp bus pos).token = 0xFF →
          command cmd wantResp bus pos = oneAttempt cmd wantResp bus pos ∧
          (command cmd wantResp bus pos).token = 0xFF ∧
          (command cmd wantResp bus pos).att = 1) ∧
        ((oneAttempt cmd wantResp bus pos).token ≠ 0xFF →
          (oneAttempt cmd wantResp bus pos).token &&& (1 <<< 3) = 0 →
          command cmd wantResp bus pos = oneAttempt cmd wantResp bus pos ∧
          (command cmd wantResp bus pos).att = 1) ∧
        ((oneAttempt cmd wantResp bus pos).token ≠ 0xFF →
          (oneAttempt cmd wantResp bus pos).token &&& (1 <<< 3) ≠ 0 →
          2 ≤ (command cmd wantResp bus pos).att)) := by
  constructor
  · unfold command
    split
    · exact commandAcmdGo_att_le cmd wantResp bus 3 pos
    · exact commandPlainGo_att_le cmd wantResp bus 3 pos
  · intro hplain
    have hcmd : command cmd wantResp bus pos = commandPlainGo cmd wantResp bus pos 3 := by
      unfold command
      rw [if_neg (by simp [hplain])]
    refine ⟨?_, ?_, ?_⟩
    · intro hff
      have : commandPlainGo cmd wantResp bus pos 3 = oneAttempt cmd wantResp bus pos := by
        simp only [commandPlainGo]
        rw [if_neg (by simp [hff])]
      rw [hcmd, this]
      exact ⟨rfl, hff, oneAttempt_att cmd wantResp bus pos⟩
    · intro _ hbit
      have : commandPlainGo cmd wantResp bus pos 3 = oneAttempt cmd wantResp bus pos := by
        simp only [commandPlainGo]
        rw [if_neg (fun hc => hc.2.1 hbit)]
      rw [hcmd, this]
      exact ⟨rfl, oneAttempt_att cmd wantResp bus pos⟩
    · intro hff hbit
      rw [hcmd]
      simp only [commandPlainGo]
      rw [if_pos ⟨hff, hbit, by omega⟩]
      have h2 := commandPlainGo_att_pos cmd wantResp bus 2
        (oneAttempt cmd wantResp bus pos).pos (by omega)
      simp only [commandPlainGo] at h2
      simpa using Nat.succ_le_succ h2

/-- C4 witness: on a bus whose first response byte is `0x00`, CMD17 succeeds
on the first attempt with that R1. -/
theorem C4_command_retry_witness :
    (command 17 false (fun _ => 0) 0).att ≤ 3 ∧
      command 17 false (fun _ => 0) 0 = oneAttempt 17 false (fun _ => 0) 0 := by
  have h := C4_command_retry 17 false (fun _ => 0) 0
  refine ⟨h.1, ?_⟩
  have h2 := (h.2 (by decide)).2.1 (by decide) (by decide)
  exact h2.1

/-- C5: any start token other than `0xFE` within the 200 ms poll makes
`readData` fail immediately, with no data bytes read and no CRC comparison
(empty buffer, position exactly at the end of the poll); on token `0xFE` it
reads the payload plus a 16-bit CRC trailer and succeeds exactly when the
CRC-enable flag is clear or the received CRC16 equals `CRC16` of the buffer. -/
theorem C5_readData_token_crc (crcOn lf : Bool) (bus : Nat → Nat) (pos n : Nat) :
    ((dataTokenPoll bus pos 200).1 ≠ 0xFE →
      readData crcOn lf bus pos n = ⟨false, [], (dataTokenPoll bus pos 200).2⟩) ∧
      ((dataTokenPoll bus pos 200).1 = 0xFE →
        ((readData crcOn lf bus pos n).ok = true ↔
          (crcOn = false ∨
            recvCrc16 lf bus (dataTokenPoll bus pos 200).2 n =
              CRC16 (readData crcOn lf bus pos n).buf)) ∧
        (lf = false →
          (readData crcOn lf bus pos n).buf =
            (List.range n).map (fun i => bus ((dataTokenPoll bus pos 200).2 + i) % 256) ∧
          (readData crcOn lf bus pos n).pos = (dataTokenPoll bus pos 200).2 + n + 2) ∧
        (lf = true →
          (readData crcOn lf bus pos n).buf.length = 2 * ((n + 1) / 2) ∧
          (readData crcOn lf bus pos n).pos =
            (dataTokenPoll bus pos 200).2 + (n + 1) / 2 + 1)) := by
  constructor
  · intro hne
    unfold readData
    rw [if_pos hne]
  · intro heq
    have hne : ¬((dataTokenPoll bus pos 200).1 ≠ 0xFE) := by simp [heq]
    cases lf
    · refine ⟨?_, fun _ => ⟨?_, ?_⟩, fun h => absurd h (by decide)⟩
      · simp only [readData, if_neg hne, Bool.false_eq_true, if_false, recvCrc16,
          Bool.or_eq_true, Bool.not_eq_true', decide_eq_true_eq]
      · simp [readData, if_neg hne]
      · simp [readData, if_neg hne]
    · refine ⟨?_, fun h => absurd h (by decide), fun _ => ⟨?_, ?_⟩⟩
      · simp only [readData, if_neg hne, if_true, recvCrc16, Bool.or_eq_true,
          Bool.not_eq_true', decide_eq_true_eq]
      · simp only [readData, if_neg hne, if_true, List.length_flatMap,
          Function.comp_def, List.length_cons, List.length_nil]
        simp [List.sum_replicate, Nat.mul_comm]
      · simp [readData, if_neg hne]

/-- C5 witness: with CRC disabled and an immediate `0xFE` token, a 2-byte
read succeeds; with an invalid token the read aborts at once. -/
theorem C5_readData_token_crc_witness :
    (readData false false (fun i => if i = 0 then 0xFE else 0xAB) 0 2).ok = true ∧
      readData false false (fun _ => 0x11) 0 2 = ⟨false, [], 1⟩ := by
  constructor
  · have h := (C5_readData_token_crc false false (fun i => if i = 0 then 0xFE else 0xAB) 0 2).2
      (by decide)
    exact h.1.mpr (Or.inl rfl)
  · have h := (C5_readData_token_crc false false (fun _ => 0x11) 0 2).1 (by decide)
    have hp : (dataTokenPoll (fun _ => (0x11 : Nat)) 0 200).2 = 1 := by decide
    rw [hp] at h
    exact h

/-- C10: a `count` of zero is not rejected: `disk_read(buffer, sector, 0)`
takes the same single-block path and returns the same result as
`disk_read(buffer, sector, 1)`, and likewise for `disk_write`. -/
theorem C10_count_zero_is_one (s : DriverState) (bus : Nat → Nat)
    (wfuel fuel lba pos : Nat) :
    disk_read s bus wfuel fuel lba 0 pos = disk_read s bus wfuel fuel lba 1 pos ∧
      disk_write s bus wfuel fuel lba 0 pos = disk_write s bus wfuel fuel lba 1 pos := by
  constructor <;> simp [disk_read, disk_write]

end SDFS
